import Mathlib

/-!
Shallow embedding of `openid/server/impl.py` (class `OpenIDServerImpl`):
the provider core of an OpenID 1.x authentication server.  Request and
reply mappings are modelled as ordered key-value lists with Python-dict
semantics, the two association stores as lists of associations, and the
out-of-scope collaborators (trust-root validation, HMAC/SHA1, base64,
Diffie-Hellman primitives) as abstract parameters or spec-modelled
definitions.  Python exceptions (`KeyError` from `args[...]`, the
`NameError` raised by the stray debug `print` in `_associate`) are made
explicit in an `Except` layer, since `processPost` catches only
`KeyError`.
-/

set_option autoImplicit false

namespace OpenID

/-- An association: shared signing secret with its handle, type and
remaining lifetime (`expires_in <= 0` means expired). -/
structure Assoc where
  handle : String
  secret : String
  type : String
  expiresIn : Int
  deriving DecidableEq, Repr

/-- An association store: the list of live associations it holds. -/
abbrev Store := List Assoc

/-- `store.lookup(handle, type)`: first association with this handle and type. -/
def Store.lookup : Store → String → String → Option Assoc
  | [], _, _ => none
  | a :: s, h, t =>
    if a.handle == h && a.type == t then some a else Store.lookup s h t

/-- `store.remove(handle)`: delete, idempotent (no error if absent). -/
def Store.remove : Store → String → Store
  | [], _ => []
  | a :: s, h =>
    if a.handle == h then Store.remove s h else a :: Store.remove s h

/-- A request or reply mapping: ordered key-value list, keys unique,
mirroring a Python dict with insertion order. -/
abbrev Dict := List (String × String)

/-- `d.get(k)`: value of the first matching key, if any. -/
def Dict.get : Dict → String → Option String
  | [], _ => none
  | (k1, v1) :: d, k => if k1 == k then some v1 else Dict.get d k

/-- `d[k] = v`: replace the value in place if the key is present, else append. -/
def Dict.set : Dict → String → String → Dict
  | [], k, v => [(k, v)]
  | (k1, v1) :: d, k, v =>
    if k1 == k then (k, v) :: d else (k1, v1) :: Dict.set d k v

/-- The Python exceptions the embedded operations can raise. -/
inductive Exc where
  | keyError (key : String)
  | nameError (name : String)
  deriving DecidableEq, Repr

/-- The four typed outcomes `interface.REDIRECT / DO_AUTH / OK / ERROR`,
each with its payload. -/
inductive Outcome where
  | redirect (url : String)
  | doAuth (ret : String) (can : String)
  | ok (body : String)
  | error (msg : String)
  deriving DecidableEq, Repr

/-- Python `repr` of a string: wrapped in single quotes. -/
def pyRepr (s : String) : String := "\x27" ++ s ++ "\x27"

/-- The ASCII whitespace characters removed by Python `str.strip()`. -/
def isPySpace (c : Char) : Bool :=
  c = ' ' || c = '\t' || c = '\n' || c = '\r' || c = '\x0b' || c = '\x0c'

/-- Python `str.strip()`: remove leading and trailing whitespace. -/
def pyStrip (s : String) : String :=
  String.mk (((s.data.dropWhile isPySpace).reverse.dropWhile isPySpace).reverse)

/-- The accumulator loop of Python `str.split(sep)` for a one-character
separator. -/
def pySplitChars (sep : Char) : List Char → List Char → List String
  | [], acc => [String.mk acc.reverse]
  | c :: cs, acc =>
    if c = sep then String.mk acc.reverse :: pySplitChars sep cs []
    else pySplitChars sep cs (c :: acc)

/-- Python `str.split(sep)` for a one-character separator: splitting the
empty string gives `[""]`, and adjacent separators give empty fields. -/
def pySplit (s : String) (sep : Char) : List String :=
  pySplitChars sep s.data []

/-- Python `%s` of an optional string: `None` prints as "None". -/
def pyStrOpt : Option String → String
  | none => "None"
  | some s => s

/-- Python `%r` of an optional string. -/
def pyReprOpt : Option String → String
  | none => "None"
  | some s => pyRepr s

/-- Modelled from the spec: the cryptographic and encoding helpers of
`openid.cryptutil` / `openid.oidutil`, declared out of scope in §1
("the HMAC/SHA1 and big-integer primitives themselves, base64/URL
encoding helpers") and therefore kept as an abstract parameter of the
model. -/
structure Crypto where
  hmacSha1 : String → String → String
  sha1 : String → String
  toBase64 : String → String
  base64ToLong : String → Nat
  longToBase64 : Nat → String
  longToBinary : Nat → String
  strxor : String → String → String

/-- Modelled from the spec: the TrustValidator external collaborator
(§1, §2) is specified only through its interface — parse a trust-root
pattern (possibly absent) and check a candidate URL against the parsed
root — so the model keeps both operations abstract. -/
structure TrustValidator where
  parse : Option String → Option String
  validateURL : String → String → Bool

/-- Modelled from the spec: a KeyExchangeSession (§3, §4.4) built from the
peer-supplied modulus and generator together with a private exponent.
Deriving the shared secret and the own public value are plain modular
exponentiation; the literal source behavior places no restriction on the
peer public value (rejection of 0, 1, p−1 is flagged in §4.4 as a
hardening requirement beyond the literal source). -/
structure DH where
  p : Nat
  g : Nat
  priv : Nat

/-- Modelled from the spec: `dh.decryptKeyExchange(cpub)` combines the
peer public value with the private exponent into the shared secret. -/
def DH.decryptKeyExchange (dh : DH) (cpub : Nat) : Nat :=
  cpub ^ dh.priv % dh.p

/-- Modelled from the spec: `dh.createKeyExchange()` derives the own
public value. -/
def DH.createKeyExchange (dh : DH) : Nat :=
  dh.g ^ dh.priv % dh.p

/-- Modelled from the spec: `DiffieHellman.fromBase64(p, g)` decodes the
base64 modulus and generator; the private exponent is an external
choice threaded in as a parameter. -/
def DH.fromBase64 (c : Crypto) (pS gS : String) (priv : Nat) : DH :=
  { p := c.base64ToLong pS, g := c.base64ToLong gS, priv := priv }

/-- Modelled from the spec: the canonical `name:value\n` concatenation
digested by `cryptutil.signReply` (§4.3); a field named in `fields` but
absent from the payload raises a KeyError naming the missing wire field. -/
def signData (payload : Dict) : List String → Except Exc String
  | [] => .ok ""
  | f :: fs =>
    match payload.get ("openid." ++ f) with
    | none => .error (.keyError ("openid." ++ f))
    | some v => (signData payload fs).map (fun rest => f ++ ":" ++ v ++ "\n" ++ rest)

/-- Modelled from the spec: `cryptutil.signReply(reply, secret, fields)`
(§4.3) returns the comma-joined field names and the base64 of the
HMAC-SHA1 digest of the canonical data, keyed by the secret. -/
def signReply (c : Crypto) (payload : Dict) (secret : String) (fields : List String) :
    Except Exc (String × String) :=
  (signData payload fields).map fun data =>
    (String.intercalate "," fields, c.toBase64 (c.hmacSha1 secret data))

/-- Modelled from the spec: `oidutil.dictToKV` serializes a reply as
`key:value\n` lines (§6). -/
def dictToKV (d : Dict) : String :=
  String.join (d.map fun p => p.1 ++ ":" ++ p.2 ++ "\n")

/-- Modelled from the spec: `oidutil.appendArgs(url, args)` builds a
redirect URL carrying the given fields as query parameters. -/
def appendArgs (url : String) (args : Dict) : String :=
  url ++ "?" ++ String.intercalate "&" (args.map fun p => p.1 ++ "=" ++ p.2)

/-- The `OpenIDServerImpl` state: endpoint URL plus the internal and
external association stores. -/
structure Server where
  url : String
  istore : Store
  estore : Store
  deriving DecidableEq, Repr

/-- The fixed provider-side signed-field list `_signed_fields`. -/
def signedFieldsFixed : List String := ["mode", "identity", "return_to"]

/-- `_getErr(args, msg)`: redirect the error to `return_to` with
`mode=error` when `return_to` is present and non-empty, else a raw
Error outcome. -/
def getErr (args : Dict) (msg : String) : Outcome :=
  match args.get "openid.return_to" with
  | some rt =>
    if rt == "" then .error msg
    else .redirect (appendArgs rt [("openid.mode", "error"), ("openid.error", msg)])
  | none => .error msg

/-- `_postErr(msg)`: raw Error outcome with a KV body `error:<msg>`. -/
def postErr (msg : String) : Outcome :=
  .error (dictToKV [("error", msg)])

/-- The reply built and signed on the authorized GET path (lines 58-86 of
`impl.py`): base fields `mode=id_res`, `return_to`, `identity`, the
optional `invalidate_handle`, the chosen association's handle, then the
`signed`/`sig` pair from `cryptutil.signReply` over `_signed_fields`. -/
def authReply (c : Crypto) (identity return_to : String) (inv : Option String)
    (a : Assoc) : Except Exc Dict :=
  let reply : Dict := [("openid.mode", "id_res"), ("openid.return_to", return_to),
                       ("openid.identity", identity)]
  let reply :=
    match inv with
    | some h => reply.set "openid.invalidate_handle" h
    | none => reply
  let reply := reply.set "openid.assoc_handle" a.handle
  (signReply c reply a.secret signedFieldsFixed).map fun sv =>
    (reply.set "openid.signed" sv.1).set "openid.sig" sv.2

/-- The authorized tail of `processGet` (lines 58-88): resolve the signing
association — external-store lookup with fallback to a freshly issued
internal-store association and an `invalidate_handle` notice — update the
stores, then sign and redirect to `return_to`.  `freshI` is the
association the internal store would issue on `istore.get('HMAC-SHA1')`
(issuance always succeeds for the supported type, §3) and is persisted
when used. -/
def processGetAuthorized (c : Crypto) (freshI : Assoc) (srv : Server)
    (identity return_to : String) (assoc_handle : Option String) :
    Except Exc Outcome × Server :=
  let resolved : Assoc × Option String × Server :=
    match assoc_handle with
    | some h =>
      if h == "" then (freshI, none, { srv with istore := srv.istore ++ [freshI] })
      else
        match srv.estore.lookup h "HMAC-SHA1" with
        | some a =>
          if a.expiresIn ≤ 0 then
            (freshI, some h,
             { srv with estore := srv.estore.remove a.handle,
                        istore := srv.istore ++ [freshI] })
          else (a, none, srv)
        | none => (freshI, some h, { srv with istore := srv.istore ++ [freshI] })
    | none => (freshI, none, { srv with istore := srv.istore ++ [freshI] })
  match authReply c identity return_to resolved.2.1 resolved.1 with
  | .error e => (.error e, resolved.2.2)
  | .ok reply => (.ok (.redirect (appendArgs return_to reply)), resolved.2.2)

/-- `processGet(authorized, args)` (lines 20-88): validate the request,
branch on the authorization state and mode, and either error out,
forward to interactive approval, or issue a signed assertion. -/
def processGet (c : Crypto) (tv : TrustValidator) (freshI : Assoc) (srv : Server)
    (authorized : Bool) (args : Dict) : Except Exc Outcome × Server :=
  match args.get "openid.identity" with
  | none => (.ok (getErr args "No identity specified"), srv)
  | some identity =>
    match tv.parse (args.get "openid.trust_root") with
    | none =>
      (.ok (getErr args ("Malformed trust_root: " ++
        pyStrOpt (args.get "openid.trust_root"))), srv)
    | some tr =>
      match args.get "openid.return_to" with
      | none => (.ok (getErr args "No return_to URL specified"), srv)
      | some return_to =>
        if !tv.validateURL tr return_to then
          (.ok (getErr args ("return_to(" ++ return_to ++
            ") not valid against trust_root(" ++
            pyStrOpt (args.get "openid.trust_root") ++ ")")), srv)
        else
          if !authorized then
            if args.get "openid.mode" == some "checkid_immediate" then
              (.ok (.redirect (appendArgs srv.url (args.set "openid.mode" "checkid_setup"))),
               srv)
            else if args.get "openid.mode" == some "checkid_setup" then
              (.ok (.doAuth (appendArgs srv.url args)
                    (appendArgs return_to [("openid.mode", "cancel")])), srv)
            else
              (.ok (getErr args ("open.mode (" ++
                pyReprOpt (args.get "openid.mode") ++ ") not understood")), srv)
          else
            processGetAuthorized c freshI srv identity return_to
              (args.get "openid.assoc_handle")

/-- `_associate(args)` (lines 103-146): issue a fresh external-store
association and reply with its parameters.  `freshE` is the association
the external store issues for a supported type (`none` for an
unsupported one).  On the plain (no/falsy `session_type`) branch the
source's debug `print (reply, mac_key)` dereferences the unbound local
`mac_key` and raises `NameError`. -/
def associate (c : Crypto) (freshE : String → Option Assoc) (dhPriv : Nat)
    (srv : Server) (args : Dict) : Except Exc Outcome × Server :=
  let assoc_type := (args.get "openid.assoc_type").getD "HMAC-SHA1"
  match freshE assoc_type with
  | none =>
    (.ok (postErr ("unable to create an association for type " ++ pyRepr assoc_type)), srv)
  | some assoc =>
    let srv1 : Server := { srv with estore := srv.estore ++ [assoc] }
    let reply : Dict := [("assoc_type", "HMAC-SHA1"), ("assoc_handle", assoc.handle),
                         ("expires_in", toString assoc.expiresIn)]
    match args.get "openid.session_type" with
    | some st =>
      if st == "" then
        (.error (.nameError "mac_key"), srv1)
      else if st == "DH-SHA1" then
        match args.get "openid.dh_modulus" with
        | none => (.error (.keyError "openid.dh_modulus"), srv1)
        | some pS =>
          match args.get "openid.dh_gen" with
          | none => (.error (.keyError "openid.dh_gen"), srv1)
          | some gS =>
            match args.get "openid.dh_consumer_public" with
            | none => (.error (.keyError "openid.dh_consumer_public"), srv1)
            | some cpubS =>
              let dh := DH.fromBase64 c pS gS dhPriv
              let cpub := c.base64ToLong cpubS
              let dh_shared := dh.decryptKeyExchange cpub
              let mac_key := c.strxor assoc.secret (c.sha1 (c.longToBinary dh_shared))
              let spub := dh.createKeyExchange
              let reply := reply ++ [("session_type", st),
                ("dh_server_public", c.longToBase64 spub),
                ("enc_mac_key", c.toBase64 mac_key)]
              (.ok (.ok (dictToKV reply)), srv1)
      else
        (.ok (postErr "session_type must be DH-SHA1"), srv1)
    | none => (.error (.nameError "mac_key"), srv1)

/-- The `invalidate_handle` echo of `_checkAuth` (lines 167-170): echoed
back only when present, non-empty and absent from the external store. -/
def invalidateEcho (estore : Store) (args : Dict) : Dict :=
  match args.get "openid.invalidate_handle" with
  | some ih =>
    if ih != "" && (Store.lookup estore ih "HMAC-SHA1").isNone then
      [("invalidate_handle", ih)]
    else []
  | none => []

/-- `_checkAuth(args)` (lines 148-179): stateless signature verification
for dumb-mode relying parties.  The handle is looked up in the internal
store; an unexpired association has the signature recomputed over the
caller-supplied `signed` field list with `mode` overridden to `id_res`;
on a match the source removes the handle from the *external* store
(line 164). -/
def checkAuth (c : Crypto) (srv : Server) (args : Dict) : Except Exc Outcome × Server :=
  match args.get "openid.assoc_handle" with
  | none => (.error (.keyError "openid.assoc_handle"), srv)
  | some h =>
    match srv.istore.lookup h "HMAC-SHA1" with
    | none => (.ok (postErr ("no secret found for " ++ pyRepr h)), srv)
    | some assoc =>
      if assoc.expiresIn > 0 then
        let dat := args.set "openid.mode" "id_res"
        match args.get "openid.signed" with
        | none => (.error (.keyError "openid.signed"), srv)
        | some signedS =>
          match signReply c dat assoc.secret (pySplit (pyStrip signedS) ',') with
          | .error e => (.error e, srv)
          | .ok sv =>
            match args.get "openid.sig" with
            | none => (.error (.keyError "openid.sig"), srv)
            | some sig =>
              if sv.2 == sig then
                let srv1 : Server := { srv with estore := srv.estore.remove h }
                (.ok (.ok (dictToKV (invalidateEcho srv1.estore args ++
                  [("is_valid", "true")]))), srv1)
              else
                (.ok (.ok (dictToKV [("is_valid", "false")])), srv)
      else
        (.ok (.ok (dictToKV [("is_valid", "false")])), { srv with istore := srv.istore.remove h })

/-- The body of `processPost` before the `except KeyError` handler:
dispatch on `openid.mode`. -/
def processPostBody (c : Crypto) (freshE : String → Option Assoc) (dhPriv : Nat)
    (srv : Server) (args : Dict) : Except Exc Outcome × Server :=
  match args.get "openid.mode" with
  | none => (.error (.keyError "openid.mode"), srv)
  | some mode =>
    if mode == "associate" then associate c freshE dhPriv srv args
    else if mode == "check_authentication" then checkAuth c srv args
    else (.ok (postErr ("Unrecognized openid.mode (" ++ pyRepr mode ++ ")")), srv)

/-- `processPost(args)` (lines 90-101): dispatch, turning a `KeyError`
into a "Necessary openid argument missing" Error outcome; any other
exception propagates to the caller. -/
def processPost (c : Crypto) (freshE : String → Option Assoc) (dhPriv : Nat)
    (srv : Server) (args : Dict) : Except Exc Outcome × Server :=
  match processPostBody c freshE dhPriv srv args with
  | (.error (.keyError k), srv1) =>
    (.ok (postErr ("Necessary openid argument (" ++ pyRepr k ++ ") missing.")), srv1)
  | r => r

/-! Concrete instantiations of the abstract collaborators, used to
evaluate the model on closed inputs. -/

/-- Decimal reading of a digit list, for the concrete base64 decoder. -/
def decimalOf : List Char → Nat → Nat
  | [], n => n
  | c :: cs, n => decimalOf cs (n * 10 + (c.toNat - 48))

/-- A concrete instantiation of the crypto helpers: every primitive tags
its arguments so distinct inputs give distinct outputs, and the base64
decoder reads decimal digits. -/
def crypto0 : Crypto where
  hmacSha1 := fun k m => "hmac(" ++ k ++ "," ++ m ++ ")"
  sha1 := fun s => "sha1(" ++ s ++ ")"
  toBase64 := fun s => "b64(" ++ s ++ ")"
  base64ToLong := fun s => decimalOf s.data 0
  longToBase64 := fun n => "B64:" ++ toString n
  longToBinary := fun n => toString n
  strxor := fun a b => "xor(" ++ a ++ "," ++ b ++ ")"

/-- A concrete trust validator: a present pattern parses to itself and
every URL validates against it. -/
def tv0 : TrustValidator where
  parse := fun tr => tr
  validateURL := fun _ _ => true

/-- An unexpired internal-store association. -/
def assocA : Assoc := { handle := "h1", secret := "sec", type := "HMAC-SHA1", expiresIn := 600 }

/-- An expired internal-store association. -/
def assocX : Assoc := { handle := "hx", secret := "sx", type := "HMAC-SHA1", expiresIn := 0 }

/-- An external-store association that shares the handle `h1` with `assocA`. -/
def assocE : Assoc := { handle := "h1", secret := "esec", type := "HMAC-SHA1", expiresIn := 500 }

/-- The fresh association issued on demand in the concrete runs. -/
def freshA : Assoc := { handle := "fh", secret := "fsec", type := "HMAC-SHA1", expiresIn := 600 }

/-- Concrete store issuance: only the `HMAC-SHA1` type is supported. -/
def freshE0 : String → Option Assoc :=
  fun t => if t == "HMAC-SHA1" then some freshA else none

/-- An empty server. -/
def srv0 : Server := { url := "https://op.example/", istore := [], estore := [] }

/-- A server holding the unexpired `assocA` internally and `assocE`
(same handle) externally. -/
def srvC1 : Server := { url := "https://op.example/", istore := [assocA], estore := [assocE] }

/-- A server holding only the expired `assocX` internally. -/
def srvC7 : Server := { url := "https://op.example/", istore := [assocX], estore := [] }

/-- A check_authentication request for `assocA` whose `sig` matches the
signature recomputed by `crypto0` over the caller-supplied field list. -/
def argsC1 : Dict :=
  [("openid.mode", "check_authentication"), ("openid.assoc_handle", "h1"),
   ("openid.signed", "mode"), ("openid.sig", "b64(hmac(sec,mode:id_res\n))")]

/-- An associate request with no `session_type`. -/
def argsC2 : Dict := [("openid.mode", "associate")]

/-- An associate request with an explicit supported `assoc_type` and no
`session_type`. -/
def argsC3 : Dict := [("openid.mode", "associate"), ("openid.assoc_type", "HMAC-SHA1")]

/-- A DH-SHA1 associate request whose consumer public value decodes to 0. -/
def argsC5 : Dict :=
  [("openid.mode", "associate"), ("openid.session_type", "DH-SHA1"),
   ("openid.dh_modulus", "23"), ("openid.dh_gen", "5"),
   ("openid.dh_consumer_public", "0")]

/-- An authorized authentication request carrying a stale `assoc_handle`. -/
def argsC6 : Dict :=
  [("openid.mode", "checkid_setup"), ("openid.identity", "u"),
   ("openid.trust_root", "https://rp.example/"),
   ("openid.return_to", "https://rp.example/cb"),
   ("openid.assoc_handle", "stale")]

/-- A check_authentication request for the expired `assocX`. -/
def argsC7 : Dict :=
  [("openid.mode", "check_authentication"), ("openid.assoc_handle", "hx")]

/-- An authentication request with no identity but a known `return_to`. -/
def argsC8 : Dict := [("openid.return_to", "https://rp.example/cb")]

/-- A valid checkid_immediate authentication request. -/
def argsC9 : Dict :=
  [("openid.mode", "checkid_immediate"), ("openid.identity", "u"),
   ("openid.trust_root", "https://rp.example/"),
   ("openid.return_to", "https://rp.example/cb")]

/-- The canonical signed data of an authentication reply: the §4.3
`name:value\n` concatenation over the fixed field list, with `mode`
already `id_res`. -/
def authSignData (identity return_to : String) : String :=
  "mode" ++ ":" ++ "id_res" ++ "\n" ++
    ("identity" ++ ":" ++ identity ++ "\n" ++
      ("return_to" ++ ":" ++ return_to ++ "\n" ++ ""))

/-! Helper lemmas about the dictionary and store operations. -/

theorem dict_get_set_self (d : Dict) (k v : String) :
    Dict.get (Dict.set d k v) k = some v := by
  induction d with
  | nil => simp [Dict.set, Dict.get]
  | cons p d ih =>
    obtain ⟨k1, v1⟩ := p
    by_cases h : k1 = k
    · subst h; simp [Dict.set, Dict.get]
    · simp [Dict.set, Dict.get, h, ih]

theorem dict_get_set_ne (d : Dict) (k v k2 : String) (h : k2 ≠ k) :
    Dict.get (Dict.set d k v) k2 = Dict.get d k2 := by
  induction d with
  | nil => simp [Dict.set, Dict.get, Ne.symm h]
  | cons p d ih =>
    obtain ⟨k1, v1⟩ := p
    by_cases h1 : k1 = k
    · subst h1; simp [Dict.set, Dict.get, Ne.symm h]
    · simp [Dict.set, Dict.get, h1, ih]

theorem store_lookup_remove_self (s : Store) (h t : String) :
    Store.lookup (Store.remove s h) h t = none := by
  induction s with
  | nil => rfl
  | cons a s ih =>
    by_cases ha : a.handle = h
    · simp [Store.remove, ha, ih]
    · simp [Store.remove, Store.lookup, ha, ih]

theorem store_lookup_handle_type {s : Store} {h t : String} {a : Assoc}
    (hl : Store.lookup s h t = some a) : a.handle = h ∧ a.type = t := by
  induction s with
  | nil => simp [Store.lookup] at hl
  | cons b s ih =>
    rw [Store.lookup] at hl
    split at hl
    · rename_i hb
      simp only [Bool.and_eq_true, beq_iff_eq] at hb
      obtain rfl : b = a := Option.some.inj hl
      exact hb
    · exact ih hl

theorem authReply_some_inv (c : Crypto) (identity rt h : String) (a : Assoc) :
    authReply c identity rt (some h) a = .ok
      [("openid.mode", "id_res"), ("openid.return_to", rt),
       ("openid.identity", identity), ("openid.invalidate_handle", h),
       ("openid.assoc_handle", a.handle),
       ("openid.signed", "mode,identity,return_to"),
       ("openid.sig", c.toBase64 (c.hmacSha1 a.secret (authSignData identity rt)))] := by
  rfl

/-! Claim theorems. -/

/-- Claim C10: an authentication request processed with `authorized=false`
leaves both association stores unchanged, and its outcome does not depend
on the contents of either store. -/
theorem C10_unauthorized_request_preserves_stores (c : Crypto) (tv : TrustValidator)
    (freshI : Assoc) (u : String) (i1 e1 i2 e2 : Store) (args : Dict) :
    (processGet c tv freshI ⟨u, i1, e1⟩ false args).2 = ⟨u, i1, e1⟩ ∧
    (processGet c tv freshI ⟨u, i1, e1⟩ false args).1 =
      (processGet c tv freshI ⟨u, i2, e2⟩ false args).1 := by
  constructor <;>
    · unfold processGet
      repeat first | rfl | split
      all_goals simp_all

/-- Claim C9: a valid but unauthorized `checkid_immediate` request yields
a Redirect to the provider's own endpoint whose query parameters are the
original request fields with only `openid.mode` rewritten from
`checkid_immediate` to `checkid_setup`. -/
theorem C9_checkid_immediate_forwards_to_setup (c : Crypto) (tv : TrustValidator)
    (freshI : Assoc) (srv : Server) (args : Dict) (identity tr rt : String)
    (hid : args.get "openid.identity" = some identity)
    (htr : tv.parse (args.get "openid.trust_root") = some tr)
    (hrt : args.get "openid.return_to" = some rt)
    (hval : tv.validateURL tr rt = true)
    (hm : args.get "openid.mode" = some "checkid_immediate") :
    processGet c tv freshI srv false args =
      (.ok (.redirect (appendArgs srv.url (args.set "openid.mode" "checkid_setup"))), srv) ∧
    Dict.get (args.set "openid.mode" "checkid_setup") "openid.mode" = some "checkid_setup" ∧
    ∀ k, k ≠ "openid.mode" →
      Dict.get (args.set "openid.mode" "checkid_setup") k = Dict.get args k := by
  refine ⟨?_, dict_get_set_self args "openid.mode" "checkid_setup",
    fun k hk => dict_get_set_ne args "openid.mode" "checkid_setup" k hk⟩
  simp only [processGet, hid, htr, hrt, hval, hm]
  simp

/-- Claim C8: every validation failure of an authentication request
(missing identity, unparsable trust_root, missing return_to, or
return_to failing trust-root validation) is routed as a Redirect to
`return_to` carrying `mode=error` and the message whenever `return_to`
is present and non-empty — including when `return_to` itself is the
value that failed validation — and as a raw Error outcome otherwise. -/
theorem C8_validation_failure_error_routing (c : Crypto) (tv : TrustValidator)
    (freshI : Assoc) (srv : Server) (authorized : Bool) (args : Dict)
    (hfail :
      args.get "openid.identity" = none ∨
      ((∃ identity, args.get "openid.identity" = some identity) ∧
        tv.parse (args.get "openid.trust_root") = none) ∨
      ((∃ identity, args.get "openid.identity" = some identity) ∧
        (∃ tr, tv.parse (args.get "openid.trust_root") = some tr) ∧
        args.get "openid.return_to" = none) ∨
      (∃ identity tr rt, args.get "openid.identity" = some identity ∧
        tv.parse (args.get "openid.trust_root") = some tr ∧
        args.get "openid.return_to" = some rt ∧
        tv.validateURL tr rt = false)) :
    ∃ msg, processGet c tv freshI srv authorized args =
      (.ok (match args.get "openid.return_to" with
            | some rt =>
              if rt = "" then Outcome.error msg
              else Outcome.redirect (appendArgs rt
                     [("openid.mode", "error"), ("openid.error", msg)])
            | none => Outcome.error msg), srv) := by
  rcases hfail with h1 | ⟨⟨identity, hid⟩, htr⟩ | ⟨⟨identity, hid⟩, ⟨tr, htr⟩, hrt⟩ |
    ⟨identity, tr, rt, hid, htr, hrt, hval⟩
  · refine ⟨"No identity specified", ?_⟩
    simp only [processGet, h1, getErr]
    cases hr : args.get "openid.return_to" <;> simp [hr]
  · refine ⟨"Malformed trust_root: " ++ pyStrOpt (args.get "openid.trust_root"), ?_⟩
    simp only [processGet, hid, htr, getErr]
    cases hr : args.get "openid.return_to" <;> simp [hr]
  · refine ⟨"No return_to URL specified", ?_⟩
    simp only [processGet, hid, htr, getErr]
    simp [hrt]
  · refine ⟨"return_to(" ++ rt ++ ") not valid against trust_root(" ++
      pyStrOpt (args.get "openid.trust_root") ++ ")", ?_⟩
    simp only [processGet, hid, htr, getErr]
    simp [hrt, hval]

/-- Claim C4: for a check_authentication request whose handle resolves to
an unexpired internal-store association, the signature is recomputed over
the request's own fields with `mode` overridden to `id_res`, over exactly
the field list obtained by comma-splitting the request's own `signed`
field, and the validity verdict is precisely the comparison of that
recomputed signature with the request's `sig`. -/
theorem C4_checkauth_recomputes_over_caller_list (c : Crypto) (srv : Server)
    (args : Dict) (h signedS sigv : String) (assoc : Assoc) (sv : String × String)
    (hh : args.get "openid.assoc_handle" = some h)
    (hl : srv.istore.lookup h "HMAC-SHA1" = some assoc)
    (he : assoc.expiresIn > 0)
    (hs : args.get "openid.signed" = some signedS)
    (hsig : args.get "openid.sig" = some sigv)
    (hsr : signReply c (args.set "openid.mode" "id_res") assoc.secret
            (pySplit (pyStrip signedS) ',') = .ok sv) :
    checkAuth c srv args =
      if sv.2 = sigv then
        (.ok (.ok (dictToKV (invalidateEcho (srv.estore.remove h) args ++
          [("is_valid", "true")]))), { srv with estore := srv.estore.remove h })
      else
        (.ok (.ok (dictToKV [("is_valid", "false")])), srv) := by
  simp only [checkAuth, hh, hl, hs, hsig, hsr]
  rw [if_pos he]
  by_cases hv : sv.2 = sigv
  · simp [hv]
  · simp [hv]

/-- Claim C7: a check_authentication request whose handle resolves to an
expired internal-store association removes the handle from the internal
store and replies `is_valid=false`; a second identical call then returns
an error outcome because the handle is no longer found. -/
theorem C7_expired_handle_single_use (c : Crypto) (freshE : String → Option Assoc)
    (x : Nat) (srv : Server) (args : Dict) (h : String) (a : Assoc)
    (hm : args.get "openid.mode" = some "check_authentication")
    (hh : args.get "openid.assoc_handle" = some h)
    (hl : srv.istore.lookup h "HMAC-SHA1" = some a)
    (he : a.expiresIn ≤ 0) :
    processPost c freshE x srv args =
      (.ok (.ok (dictToKV [("is_valid", "false")])),
       { srv with istore := srv.istore.remove h }) ∧
    processPost c freshE x { srv with istore := srv.istore.remove h } args =
      (.ok (postErr ("no secret found for " ++ pyRepr h)),
       { srv with istore := srv.istore.remove h }) := by
  have hl2 : Store.lookup (Store.remove srv.istore h) h "HMAC-SHA1" = none :=
    store_lookup_remove_self srv.istore h "HMAC-SHA1"
  have hne : ¬ a.expiresIn > 0 := not_lt.mpr he
  constructor
  · simp [processPost, processPostBody, checkAuth, hm, hh, hl, hne]
  · simp [processPost, processPostBody, checkAuth, hm, hh, hl2]

/-- Claim C6: an authorized authentication request whose `assoc_handle`
is absent from the external store, or present but expired, falls back to
a fresh internal-store association: the expired entry is removed from the
external store, the fresh association is persisted in the internal store
and signs the reply with its secret, the reply's `invalidate_handle` is
the original handle and its `assoc_handle` the fresh handle. -/
theorem C6_stale_assoc_handle_falls_back (c : Crypto) (tv : TrustValidator)
    (freshI : Assoc) (srv : Server) (args : Dict) (identity tr rt h : String)
    (hid : args.get "openid.identity" = some identity)
    (htr : tv.parse (args.get "openid.trust_root") = some tr)
    (hrt : args.get "openid.return_to" = some rt)
    (hval : tv.validateURL tr rt = true)
    (hh : args.get "openid.assoc_handle" = some h)
    (hne : h ≠ "")
    (hstale : srv.estore.lookup h "HMAC-SHA1" = none ∨
      ∃ a, srv.estore.lookup h "HMAC-SHA1" = some a ∧ a.expiresIn ≤ 0) :
    processGet c tv freshI srv true args =
      (.ok (.redirect (appendArgs rt
        [("openid.mode", "id_res"), ("openid.return_to", rt),
         ("openid.identity", identity), ("openid.invalidate_handle", h),
         ("openid.assoc_handle", freshI.handle),
         ("openid.signed", "mode,identity,return_to"),
         ("openid.sig", c.toBase64 (c.hmacSha1 freshI.secret (authSignData identity rt)))])),
       { url := srv.url, istore := srv.istore ++ [freshI],
         estore := if (srv.estore.lookup h "HMAC-SHA1").isSome
                   then srv.estore.remove h else srv.estore }) := by
  rcases hstale with hnone | ⟨a, hsome, hexp⟩
  · simp [processGet, processGetAuthorized, authReply_some_inv, hid, htr, hrt, hval,
      hh, hnone, hne]
  · obtain ⟨ha, -⟩ := store_lookup_handle_type hsome
    simp [processGet, processGetAuthorized, authReply_some_inv, hid, htr, hrt, hval,
      hh, hsome, hexp, hne, ha]

/-- Claim C5 (amended): the literal Diffie-Hellman derivation places no
restriction on the peer public value — an associate request with
`session_type=DH-SHA1` whose `dh_consumer_public` decodes to the
degenerate value 0, 1, or p−1 still completes the key exchange with an
Ok outcome instead of being rejected. -/
theorem C5_degenerate_dh_completes (c : Crypto) (freshE : String → Option Assoc)
    (x : Nat) (srv : Server) (args : Dict) (pS gS cS : String) (assoc : Assoc)
    (hm : args.get "openid.mode" = some "associate")
    (hfresh : freshE ((args.get "openid.assoc_type").getD "HMAC-SHA1") = some assoc)
    (hst : args.get "openid.session_type" = some "DH-SHA1")
    (hp : args.get "openid.dh_modulus" = some pS)
    (hg : args.get "openid.dh_gen" = some gS)
    (hc : args.get "openid.dh_consumer_public" = some cS)
    (hdeg : c.base64ToLong cS = 0 ∨ c.base64ToLong cS = 1 ∨
      c.base64ToLong cS = c.base64ToLong pS - 1) :
    processPost c freshE x srv args =
      (.ok (.ok (dictToKV [("assoc_type", "HMAC-SHA1"), ("assoc_handle", assoc.handle),
        ("expires_in", toString assoc.expiresIn), ("session_type", "DH-SHA1"),
        ("dh_server_public", c.longToBase64 (c.base64ToLong gS ^ x % c.base64ToLong pS)),
        ("enc_mac_key", c.toBase64 (c.strxor assoc.secret (c.sha1 (c.longToBinary
          (c.base64ToLong cS ^ x % c.base64ToLong pS)))))])),
       { srv with estore := srv.estore ++ [assoc] }) := by
  simp [processPost, processPostBody, associate, DH.fromBase64, DH.decryptKeyExchange,
    DH.createKeyExchange, hm, hfresh, hst, hp, hg, hc]

/-- Claim C5 (counterexample to the claim as stated): a DH-SHA1 associate
request whose `dh_consumer_public` decodes to the degenerate value 0 is
not rejected — the outcome is Ok with a completed key exchange, not an
error. -/
theorem C5_counterexample_zero_public_accepted :
    crypto0.base64ToLong "0" = 0 ∧
    processPost crypto0 freshE0 6 srv0 argsC5 =
      (.ok (.ok ("assoc_type:HMAC-SHA1\nassoc_handle:fh\nexpires_in:600\nsession_type:DH-SHA1\ndh_server_public:B64:8\nenc_mac_key:b64(xor(fsec,sha1(0)))\n")),
       { url := "https://op.example/", istore := [], estore := [freshA] }) := by
  constructor <;> rfl

/-- Claim C1 (evaluation of the code at the failing input): a
check_authentication request that matches an unexpired internal-store
association replies `is_valid=true` but removes the handle from the
*external* store, leaving the internal store untouched, so a second
identical call again replies `is_valid=true` instead of an error. -/
theorem C1_replay_still_reports_valid :
    processPost crypto0 freshE0 7 srvC1 argsC1 =
      (.ok (.ok "is_valid:true\n"),
       { url := "https://op.example/", istore := [assocA], estore := [] }) ∧
    processPost crypto0 freshE0 7
        { url := "https://op.example/", istore := [assocA], estore := [] } argsC1 =
      (.ok (.ok "is_valid:true\n"),
       { url := "https://op.example/", istore := [assocA], estore := [] }) := by
  constructor <;> rfl

/-- Claim C2 (evaluation of the code at the failing input): an associate
request with no `session_type` escapes `processPost` with an unhandled
`NameError` — the stray debug `print (reply, mac_key)` dereferences the
unbound local `mac_key` and `processPost` catches only `KeyError` — so
not every back-channel code path terminates in one of the four typed
outcomes. -/
theorem C2_associate_without_session_type_raises :
    processPost crypto0 freshE0 7 srv0 argsC2 =
      (.error (.nameError "mac_key"),
       { url := "https://op.example/", istore := [], estore := [freshA] }) := by
  rfl

/-- Claim C3 (evaluation of the code at the failing input): an associate
request with a supported `assoc_type` and no `session_type` never
returns the Ok outcome with the base64 `mac_key` reply: the unhandled
`NameError` from the debug `print` aborts `_associate` after the fresh
external-store association was already issued. -/
theorem C3_plain_associate_crashes_before_reply :
    processPost crypto0 freshE0 7 srv0 argsC3 =
      (.error (.nameError "mac_key"),
       { url := "https://op.example/", istore := [], estore := [freshA] }) := by
  rfl

/-! Witnesses: each applies its claim theorem at a concrete input. -/

theorem C4_witness :
    checkAuth crypto0 srvC1 argsC1 =
      if ("mode", "b64(hmac(sec,mode:id_res\n))").2 = "b64(hmac(sec,mode:id_res\n))" then
        (.ok (.ok (dictToKV (invalidateEcho (srvC1.estore.remove "h1") argsC1 ++
          [("is_valid", "true")]))), { srvC1 with estore := srvC1.estore.remove "h1" })
      else
        (.ok (.ok (dictToKV [("is_valid", "false")])), srvC1) :=
  C4_checkauth_recomputes_over_caller_list crypto0 srvC1 argsC1 "h1" "mode"
    "b64(hmac(sec,mode:id_res\n))" assocA ("mode", "b64(hmac(sec,mode:id_res\n))")
    rfl rfl (by decide) rfl rfl rfl

theorem C5_witness :
    processPost crypto0 freshE0 6 srv0 argsC5 =
      (.ok (.ok (dictToKV [("assoc_type", "HMAC-SHA1"), ("assoc_handle", freshA.handle),
        ("expires_in", toString freshA.expiresIn), ("session_type", "DH-SHA1"),
        ("dh_server_public", crypto0.longToBase64
          (crypto0.base64ToLong "5" ^ 6 % crypto0.base64ToLong "23")),
        ("enc_mac_key", crypto0.toBase64 (crypto0.strxor freshA.secret (crypto0.sha1
          (crypto0.longToBinary
            (crypto0.base64ToLong "0" ^ 6 % crypto0.base64ToLong "23")))))])),
       { srv0 with estore := srv0.estore ++ [freshA] }) :=
  C5_degenerate_dh_completes crypto0 freshE0 6 srv0 argsC5 "23" "5" "0" freshA
    rfl rfl rfl rfl rfl rfl (Or.inl rfl)

theorem C6_witness :
    processGet crypto0 tv0 freshA srv0 true argsC6 =
      (.ok (.redirect (appendArgs "https://rp.example/cb"
        [("openid.mode", "id_res"), ("openid.return_to", "https://rp.example/cb"),
         ("openid.identity", "u"), ("openid.invalidate_handle", "stale"),
         ("openid.assoc_handle", freshA.handle),
         ("openid.signed", "mode,identity,return_to"),
         ("openid.sig", crypto0.toBase64 (crypto0.hmacSha1 freshA.secret
           (authSignData "u" "https://rp.example/cb")))])),
       { url := srv0.url, istore := srv0.istore ++ [freshA],
         estore := if (srv0.estore.lookup "stale" "HMAC-SHA1").isSome
                   then srv0.estore.remove "stale" else srv0.estore }) :=
  C6_stale_assoc_handle_falls_back crypto0 tv0 freshA srv0 argsC6 "u"
    "https://rp.example/" "https://rp.example/cb" "stale"
    rfl rfl rfl rfl rfl (by decide) (Or.inl rfl)

theorem C7_witness :
    processPost crypto0 freshE0 7 srvC7 argsC7 =
      (.ok (.ok (dictToKV [("is_valid", "false")])),
       { srvC7 with istore := srvC7.istore.remove "hx" }) ∧
    processPost crypto0 freshE0 7 { srvC7 with istore := srvC7.istore.remove "hx" } argsC7 =
      (.ok (postErr ("no secret found for " ++ pyRepr "hx")),
       { srvC7 with istore := srvC7.istore.remove "hx" }) :=
  C7_expired_handle_single_use crypto0 freshE0 7 srvC7 argsC7 "hx" assocX
    rfl rfl rfl (by decide)

theorem C8_witness :
    ∃ msg, processGet crypto0 tv0 freshA srv0 false argsC8 =
      (.ok (match argsC8.get "openid.return_to" with
            | some rt =>
              if rt = "" then Outcome.error msg
              else Outcome.redirect (appendArgs rt
                     [("openid.mode", "error"), ("openid.error", msg)])
            | none => Outcome.error msg), srv0) :=
  C8_validation_failure_error_routing crypto0 tv0 freshA srv0 false argsC8
    (Or.inl rfl)

theorem C9_witness :
    processGet crypto0 tv0 freshA srv0 false argsC9 =
      (.ok (.redirect (appendArgs srv0.url (argsC9.set "openid.mode" "checkid_setup"))),
       srv0) ∧
    Dict.get (argsC9.set "openid.mode" "checkid_setup") "openid.mode" =
      some "checkid_setup" ∧
    ∀ k, k ≠ "openid.mode" →
      Dict.get (argsC9.set "openid.mode" "checkid_setup") k = Dict.get argsC9 k :=
  C9_checkid_immediate_forwards_to_setup crypto0 tv0 freshA srv0 argsC9 "u"
    "https://rp.example/" "https://rp.example/cb" rfl rfl rfl rfl rfl

end OpenID
